import Mathlib

set_option maxRecDepth 400000
set_option maxHeartbeats 2000000

/-!
Shallow embedding of `src/backend/main.py` (bitoranges/cheaf): the
Volcengine SigV4-style request signer (`sign`, `get_signature_key`,
`make_request`) and the FastAPI gateway endpoints (`get_credentials`,
`generate_video`, `check_status`).  Byte sequences are `List Nat`
(each element < 256) and 32-bit machine words are `Nat` reduced
modulo `2 ^ 32`.  Wall-clock time (`datetime.datetime.utcnow()`) and
the HTTP transport (`requests.request`, `resp.json()`) are the
boundaries of the embedding: the timestamp and the upstream response
are explicit parameters, and the number of upstream calls an endpoint
performs is returned alongside its result.
-/

namespace Cheaf

/-- Modulus for 32-bit words (`2 ^ 32`). -/
def w32 : Nat := 4294967296

/-- Addition modulo `2 ^ 32`. -/
def add32 (a b : Nat) : Nat := (a + b) % w32

/-- Bitwise complement on 32-bit words (`x < 2 ^ 32`). -/
def not32 (x : Nat) : Nat := 4294967295 - x

/-- Rotate a 32-bit word right by `n` bits. -/
def rotr32 (n x : Nat) : Nat := ((x >>> n) ||| (x <<< (32 - n))) % w32

/-- Shift a 32-bit word right by `n` bits, dropping low bits. -/
def shr32 (n x : Nat) : Nat := x >>> n

/-- SHA-256 choose function. -/
def ch32 (x y z : Nat) : Nat := (x &&& y) ^^^ (not32 x &&& z)

/-- SHA-256 majority function. -/
def maj32 (x y z : Nat) : Nat := (x &&& y) ^^^ (x &&& z) ^^^ (y &&& z)

/-- SHA-256 big sigma 0. -/
def bsig0 (x : Nat) : Nat := rotr32 2 x ^^^ rotr32 13 x ^^^ rotr32 22 x

/-- SHA-256 big sigma 1. -/
def bsig1 (x : Nat) : Nat := rotr32 6 x ^^^ rotr32 11 x ^^^ rotr32 25 x

/-- SHA-256 small sigma 0. -/
def ssig0 (x : Nat) : Nat := rotr32 7 x ^^^ rotr32 18 x ^^^ shr32 3 x

/-- SHA-256 small sigma 1. -/
def ssig1 (x : Nat) : Nat := rotr32 17 x ^^^ rotr32 19 x ^^^ shr32 10 x

/-- The 64 SHA-256 round constants (decimal values of the words the
standard lists as the fractional cube-root table). -/
def sha256K : List Nat :=
  [1116352408, 1899447441, 3049323471, 3921009573, 961987163, 1508970993,
   2453635748, 2870763221, 3624381080, 310598401, 607225278, 1426881987,
   1925078388, 2162078206, 2614888103, 3248222580, 3835390401, 4022224774,
   264347078, 604807628, 770255983, 1249150122, 1555081692, 1996064986,
   2554220882, 2821834349, 2952996808, 3210313671, 3336571891, 3584528711,
   113926993, 338241895, 666307205, 773529912, 1294757372, 1396182291,
   1695183700, 1986661051, 2177026350, 2456956037, 2730485921, 2820302411,
   3259730800, 3345764771, 3516065817, 3600352804, 4094571909, 275423344,
   430227734, 506948616, 659060556, 883997877, 958139571, 1322822218,
   1537002063, 1747873779, 1955562222, 2024104815, 2227730452, 2361852424,
   2428436474, 2756734187, 3204031479, 3329325298]

/-- The SHA-256 initial hash state, in decimal. -/
def sha256H0 : List Nat :=
  [1779033703, 3144134277, 1013904242, 2773480762,
   1359893119, 2600822924, 528734635, 1541459225]

/-- Big-endian 4-byte encoding of a 32-bit word. -/
def be32 (n : Nat) : List Nat :=
  [(n >>> 24) % 256, (n >>> 16) % 256, (n >>> 8) % 256, n % 256]

/-- Big-endian 8-byte encoding of a 64-bit length. -/
def be64 (n : Nat) : List Nat :=
  [(n >>> 56) % 256, (n >>> 48) % 256, (n >>> 40) % 256, (n >>> 32) % 256,
   (n >>> 24) % 256, (n >>> 16) % 256, (n >>> 8) % 256, n % 256]

/-- SHA-256 padding: append `0x80`, zeros, and the 64-bit bit length. -/
def sha256pad (msg : List Nat) : List Nat :=
  msg ++ 128 :: List.replicate ((64 - (msg.length + 9) % 64) % 64) 0 ++ be64 (8 * msg.length)

/-- Split a byte list into 64-byte chunks (fuel-indexed so the
recursion is structural and kernel-reducible). -/
def chunksGo : Nat → List Nat → List (List Nat)
  | 0, _ => []
  | _, [] => []
  | n + 1, l => l.take 64 :: chunksGo n (l.drop 64)

/-- Split a byte list into 64-byte chunks. -/
def chunks64 (l : List Nat) : List (List Nat) := chunksGo l.length l

/-- Combine consecutive 4-byte groups into big-endian 32-bit words. -/
def toWords : List Nat → List Nat
  | b0 :: b1 :: b2 :: b3 :: rest => (((b0 * 256 + b1) * 256 + b2) * 256 + b3) :: toWords rest
  | _ => []

/-- Extend the message schedule; the accumulator holds the schedule in
reverse order, so `w[t-2]` is at index 1 and `w[t-16]` at index 15. -/
def extendW : Nat → List Nat → List Nat
  | 0, wrev => wrev
  | n + 1, wrev =>
    extendW n (add32 (add32 (ssig1 (wrev.getD 1 0)) (wrev.getD 6 0))
      (add32 (ssig0 (wrev.getD 14 0)) (wrev.getD 15 0)) :: wrev)

/-- The eight working variables of the SHA-256 compression loop. -/
structure Hash8 where
  a : Nat
  b : Nat
  c : Nat
  d : Nat
  e : Nat
  f : Nat
  g : Nat
  h : Nat

/-- One round of the SHA-256 compression loop; the pair carries the
round constant and the schedule word. -/
def sha256Round (st : Hash8) (kw : Nat × Nat) : Hash8 :=
  let t1 := add32 st.h (add32 (bsig1 st.e) (add32 (ch32 st.e st.f st.g) (add32 kw.1 kw.2)))
  let t2 := add32 (bsig0 st.a) (maj32 st.a st.b st.c)
  ⟨add32 t1 t2, st.a, st.b, st.c, add32 st.d t1, st.e, st.f, st.g⟩

/-- Compress one 64-byte block into the running hash state. -/
def compressBlock (hs : List Nat) (block : List Nat) : List Nat :=
  let w := (extendW 48 (toWords block).reverse).reverse
  let st0 : Hash8 := ⟨hs.getD 0 0, hs.getD 1 0, hs.getD 2 0, hs.getD 3 0,
                      hs.getD 4 0, hs.getD 5 0, hs.getD 6 0, hs.getD 7 0⟩
  let st := (sha256K.zip w).foldl sha256Round st0
  [add32 (hs.getD 0 0) st.a, add32 (hs.getD 1 0) st.b, add32 (hs.getD 2 0) st.c,
   add32 (hs.getD 3 0) st.d, add32 (hs.getD 4 0) st.e, add32 (hs.getD 5 0) st.f,
   add32 (hs.getD 6 0) st.g, add32 (hs.getD 7 0) st.h]

/-- SHA-256 of a byte sequence, as the 32-byte digest. -/
def sha256 (msg : List Nat) : List Nat :=
  ((chunks64 (sha256pad msg)).foldl compressBlock sha256H0).foldr
    (fun h acc => be32 h ++ acc) []

/-- Lowercase hex digit for a value below 16. -/
def hexDigit (n : Nat) : Char := if n < 10 then Char.ofNat (48 + n) else Char.ofNat (87 + n)

/-- Two lowercase hex digits of a byte. -/
def hexByte (b : Nat) : List Char := [hexDigit (b / 16), hexDigit (b % 16)]

/-- Lowercase hex string of a byte sequence (Python `.hexdigest()`). -/
def hexdigest (bs : List Nat) : String :=
  ⟨bs.foldr (fun b acc => hexByte b ++ acc) []⟩

/-- HMAC-SHA256 with byte-sequence key and message (Python
`hmac.new(key, msg, hashlib.sha256)`); a key longer than the 64-byte
block is first hashed, then the key is zero-padded to 64 bytes. -/
def hmacSha256 (key msg : List Nat) : List Nat :=
  let k1 := if 64 < key.length then sha256 key else key
  let k0 := k1 ++ List.replicate (64 - k1.length) 0
  sha256 ((k0.map fun b => b ^^^ 0x5c) ++ sha256 ((k0.map fun b => b ^^^ 0x36) ++ msg))

/-- UTF-8 encoding of one character. -/
def utf8Char (c : Char) : List Nat :=
  let n := c.toNat
  if n < 0x80 then [n]
  else if n < 0x800 then [0xC0 + n / 64, 0x80 + n % 64]
  else if n < 0x10000 then [0xE0 + n / 4096, 0x80 + (n / 64) % 64, 0x80 + n % 64]
  else [0xF0 + n / 262144, 0x80 + (n / 4096) % 64, 0x80 + (n / 64) % 64, 0x80 + n % 64]

/-- UTF-8 encoding of a string (Python `str.encode("utf-8")`). -/
def utf8 (s : String) : List Nat := s.data.foldr (fun c acc => utf8Char c ++ acc) []

/-- The single-quote character. -/
def squote : Char := Char.ofNat 39

/-- The double-quote character. -/
def dquote : Char := Char.ofNat 34

/-- The backslash character. -/
def bslash : Char := Char.ofNat 92

/-- Python/JSON values: the payloads parsed from and serialized to
JSON by the gateway (`resp.json()` results and request bodies). -/
inductive JVal where
  | str (s : String)
  | int (n : Int)
  | bool (b : Bool)
  | null
  | list (xs : List JVal)
  | dict (fields : List (String × JVal))

/-- Four lowercase hex digits (for JSON `\uXXXX` escapes). -/
def hex4 (n : Nat) : List Char :=
  [hexDigit (n / 4096 % 16), hexDigit (n / 256 % 16), hexDigit (n / 16 % 16), hexDigit (n % 16)]

/-- JSON escaping of one character as `json.dumps` does with its
default `ensure_ascii=True`: ASCII printable characters pass through,
everything else becomes a short escape or a `\uXXXX` escape (with a
surrogate pair above the BMP). -/
def jsonEscapeChar (c : Char) : List Char :=
  if c = dquote then [bslash, dquote]
  else if c = bslash then [bslash, bslash]
  else if c.toNat = 10 then [bslash, 'n']
  else if c.toNat = 9 then [bslash, 't']
  else if c.toNat = 13 then [bslash, 'r']
  else if c.toNat = 8 then [bslash, 'b']
  else if c.toNat = 12 then [bslash, 'f']
  else if c.toNat < 32 then bslash :: 'u' :: hex4 c.toNat
  else if c.toNat < 127 then [c]
  else if c.toNat < 0x10000 then bslash :: 'u' :: hex4 c.toNat
  else (bslash :: 'u' :: hex4 (0xD800 + (c.toNat - 0x10000) / 1024)) ++
       (bslash :: 'u' :: hex4 (0xDC00 + (c.toNat - 0x10000) % 1024))

/-- JSON string literal with surrounding double quotes. -/
def jsonStrLit (s : String) : String :=
  dquote.toString ++ ⟨s.data.foldr (fun c acc => jsonEscapeChar c ++ acc) []⟩ ++ dquote.toString

mutual

/-- Compact JSON serialization, modelling Python
`json.dumps(v, separators=(",", ":"))`: no inserted whitespace. -/
def jsonDumps : JVal → String
  | .str s => jsonStrLit s
  | .int n => toString n
  | .bool true => "true"
  | .bool false => "false"
  | .null => "null"
  | .list xs => "[" ++ String.intercalate "," (jsonDumpsList xs) ++ "]"
  | .dict fs => "\x7b" ++ String.intercalate "," (jsonDumpsFields fs) ++ "\x7d"

/-- Serializations of the elements of a JSON array. -/
def jsonDumpsList : List JVal → List String
  | [] => []
  | x :: xs => jsonDumps x :: jsonDumpsList xs

/-- Serializations of the fields of a JSON object. -/
def jsonDumpsFields : List (String × JVal) → List String
  | [] => []
  | (k, v) :: fs => (jsonStrLit k ++ ":" ++ jsonDumps v) :: jsonDumpsFields fs

end

/-- Python `repr` escaping of one character inside a string literal
quoted by `q`. -/
def pyEscapeChar (q : Char) (c : Char) : List Char :=
  if c = bslash then [bslash, bslash]
  else if c = q then [bslash, q]
  else if c.toNat = 10 then [bslash, 'n']
  else if c.toNat = 13 then [bslash, 'r']
  else if c.toNat = 9 then [bslash, 't']
  else if c.toNat < 32 ∨ c.toNat = 127 then
    bslash :: 'x' :: [hexDigit (c.toNat / 16), hexDigit (c.toNat % 16)]
  else [c]

/-- Python `repr` of a string: single-quoted, except that a string
containing a single quote and no double quote is double-quoted. -/
def pyStrLit (s : String) : String :=
  if s.data.contains squote ∧ ¬ s.data.contains dquote then
    dquote.toString ++ ⟨s.data.foldr (fun c acc => pyEscapeChar dquote c ++ acc) []⟩ ++
      dquote.toString
  else
    squote.toString ++ ⟨s.data.foldr (fun c acc => pyEscapeChar squote c ++ acc) []⟩ ++
      squote.toString

mutual

/-- Python `str()` of a parsed-JSON value (dicts print as
`\x7b'key': value, ...\x7d`, booleans as `True`/`False`, `None`). -/
def pyRepr : JVal → String
  | .str s => pyStrLit s
  | .int n => toString n
  | .bool true => "True"
  | .bool false => "False"
  | .null => "None"
  | .list xs => "[" ++ String.intercalate ", " (pyReprList xs) ++ "]"
  | .dict fs => "\x7b" ++ String.intercalate ", " (pyReprFields fs) ++ "\x7d"

/-- Reprs of the elements of a Python list. -/
def pyReprList : List JVal → List String
  | [] => []
  | x :: xs => pyRepr x :: pyReprList xs

/-- Reprs of the entries of a Python dict. -/
def pyReprFields : List (String × JVal) → List String
  | [] => []
  | (k, v) :: fs => (pyStrLit k ++ ": " ++ pyRepr v) :: pyReprFields fs

end

/-- A UTC instant as produced by `datetime.datetime.utcnow()`. -/
structure PyDatetime where
  year : Nat
  month : Nat
  day : Nat
  hour : Nat
  minute : Nat
  second : Nat

/-- Zero-padded two-digit decimal field. -/
def pad2 (n : Nat) : String := if n < 10 then "0" ++ toString n else toString n

/-- Zero-padded four-digit decimal field. -/
def pad4 (n : Nat) : String :=
  if n < 10 then "000" ++ toString n
  else if n < 100 then "00" ++ toString n
  else if n < 1000 then "0" ++ toString n
  else toString n

/-- Python `t.strftime("%Y%m%dT%H%M%SZ")`. -/
def strftimeAmzDate (t : PyDatetime) : String :=
  pad4 t.year ++ pad2 t.month ++ pad2 t.day ++ "T" ++
    pad2 t.hour ++ pad2 t.minute ++ pad2 t.second ++ "Z"

/-- Python `t.strftime("%Y%m%d")`. -/
def strftimeDateStamp (t : PyDatetime) : String :=
  pad4 t.year ++ pad2 t.month ++ pad2 t.day

/-- Python dict lookup `ps[k]` on an insertion-ordered association
list with unique keys (first match). -/
def pyDictGet : List (String × String) → String → Option String
  | [], _ => none
  | p :: ps, k => if p.1 = k then some p.2 else pyDictGet ps k

/-- Python dict assignment `ps[k] = v`: if the key is present its
value is replaced in place, otherwise the pair is appended. -/
def pyDictSet (ps : List (String × String)) (k v : String) : List (String × String) :=
  if ps.any fun p => p.1 = k then ps.map fun p => if p.1 = k then (k, v) else p
  else ps ++ [(k, v)]

/-- Ordering used by Python `sorted(params.items())`: tuples compare
lexicographically, first by key, then by value. -/
def pairLe (a b : String × String) : Prop :=
  a.1 < b.1 ∨ (a.1 = b.1 ∧ a.2 ≤ b.2)

/-- Decidability of the string order through the underlying character
lists, so that sorting evaluates inside the kernel. -/
def decStrLt (a b : String) : Decidable (a < b) :=
  decidable_of_iff (a.toList < b.toList) String.lt_iff_toList_lt.symm

/-- Decidability of the reflexive string order through the underlying
character lists. -/
def decStrLe (a b : String) : Decidable (a ≤ b) :=
  decidable_of_iff (a.toList ≤ b.toList) String.le_iff_toList_le.symm

instance : DecidableRel pairLe := fun a b =>
  decidable_of_iff (a.1.toList < b.1.toList ∨ (a.1 = b.1 ∧ a.2.toList ≤ b.2.toList))
    (by unfold pairLe; rw [String.lt_iff_toList_lt, String.le_iff_toList_le])

/-- Python `sorted(params.items())`.  Since `pairLe` is a total,
transitive and antisymmetric order, every correct sort produces the
same list, so insertion sort is a faithful model of Python's sort. -/
def sortedItems (ps : List (String × String)) : List (String × String) :=
  List.insertionSort pairLe ps

-- Module-level constants of `src/backend/main.py` (lines 25-28).

/-- Upstream host (`HOST` in the source). -/
def HOST : String := "visual.volcengineapi.com"

/-- Signing region (`REGION` in the source). -/
def REGION : String := "cn-north-1"

/-- Signing service name (`SERVICE` in the source). -/
def SERVICE : String := "visual"

/-- Fixed API version (`VERSION` in the source). -/
def VERSION : String := "2022-08-31"

/-- Credential resolution (`get_credentials`, lines 42-47): a
request-supplied value wins unless it is falsy (absent or empty),
falling back to the `JIMENG_ACCESS_KEY` / `JIMENG_SECRET_KEY`
environment variables; if either resolved value is still falsy the
function raises `Exception("Missing Credentials")`. -/
def get_credentials (req_ak req_sk env_ak env_sk : Option String) :
    Except String (String × String) :=
  let ak := match req_ak with
    | some s => if s = "" then env_ak else some s
    | none => env_ak
  let sk := match req_sk with
    | some s => if s = "" then env_sk else some s
    | none => env_sk
  match ak, sk with
  | some a, some s => if a = "" ∨ s = "" then .error "Missing Credentials" else .ok (a, s)
  | _, _ => .error "Missing Credentials"

/-- The source helper `sign(key, msg)` (lines 49-50):
`hmac.new(key, msg.encode("utf-8"), hashlib.sha256).digest()`. -/
def sign (key : List Nat) (msg : String) : List Nat := hmacSha256 key (utf8 msg)

/-- Key derivation `get_signature_key` (lines 52-57): four chained
HMAC-SHA256 applications seeded from the UTF-8 bytes of the secret
key, narrowing date, region, service, then the literal `"request"`. -/
def get_signature_key (key dateStamp regionName serviceName : String) : List Nat :=
  let kDate := sign (utf8 key) dateStamp
  let kRegion := sign kDate regionName
  let kService := sign kRegion serviceName
  sign kService "request"

/-- Everything `make_request` (lines 59-134) computes before handing
the request to `requests.request`: the network send itself is the
boundary of the embedding, so the function result is this record of
the derived values (the final dict state appears as `paramsAfter`,
modelling the in-place mutation of the caller's `params`). -/
structure SignedOutput where
  body_bytes : List Nat
  amz_date : String
  date_stamp : String
  paramsAfter : List (String × String)
  canonical_querystring : String
  payload_hash : String
  canonical_headers : String
  signed_headers : String
  canonical_request : String
  string_to_sign : String
  signature : String
  authorization_header : String
  url : String
  headers : List (String × String)

/-- The signing core of `make_request` (lines 59-134), a pure function
of its arguments and the sampled UTC instant `t`.  `body = none`
models `body=None`; `if body:` is falsy both for `None` and for the
empty dict, in which case the transmitted bytes are empty. -/
def make_request (ak sk action : String) (params : Option (List (String × String)))
    (body : Option (List (String × JVal))) (method : String) (t : PyDatetime) :
    SignedOutput :=
  let path := "/"
  let content_type := "application/json"
  let body_bytes : List Nat := match body with
    | some [] => []
    | some fs => utf8 (jsonDumps (.dict fs))
    | none => []
  let amz_date := strftimeAmzDate t
  let date_stamp := strftimeDateStamp t
  let params0 := match params with
    | none => []
    | some ps => ps
  let params1 := pyDictSet params0 "Action" action
  let params2 := pyDictSet params1 "Version" VERSION
  let canonical_querystring :=
    String.intercalate "&" ((sortedItems params2).map fun p => p.1 ++ "=" ++ p.2)
  let payload_hash := hexdigest (sha256 body_bytes)
  let canonical_headers :=
    "content-type:" ++ content_type ++ "\n" ++
    "host:" ++ HOST ++ "\n" ++
    "x-content-sha256:" ++ payload_hash ++ "\n" ++
    "x-date:" ++ amz_date ++ "\n"
  let signed_headers := "content-type;host;x-content-sha256;x-date"
  let canonical_request :=
    method ++ "\n" ++ path ++ "\n" ++ canonical_querystring ++ "\n" ++
    canonical_headers ++ "\n" ++ signed_headers ++ "\n" ++ payload_hash
  let algorithm := "HMAC-SHA256"
  let credential_scope := date_stamp ++ "/" ++ REGION ++ "/" ++ SERVICE ++ "/request"
  let string_to_sign :=
    algorithm ++ "\n" ++ amz_date ++ "\n" ++ credential_scope ++ "\n" ++
    hexdigest (sha256 (utf8 canonical_request))
  let signing_key := get_signature_key sk date_stamp REGION SERVICE
  let signature := hexdigest (hmacSha256 signing_key (utf8 string_to_sign))
  let authorization_header :=
    algorithm ++ " Credential=" ++ ak ++ "/" ++ credential_scope ++ ", " ++
    "SignedHeaders=" ++ signed_headers ++ ", Signature=" ++ signature
  let url := "https://" ++ HOST ++ path ++ "?" ++ canonical_querystring
  ⟨body_bytes, amz_date, date_stamp, params2, canonical_querystring, payload_hash,
   canonical_headers, signed_headers, canonical_request, string_to_sign, signature,
   authorization_header, url,
   [("Content-Type", content_type), ("X-Date", amz_date), ("X-Content-Sha256", payload_hash),
    ("Authorization", authorization_header), ("Host", HOST)]⟩

/-- A Python exception raised inside an endpoint's `try` body: either
a FastAPI `HTTPException` or a plain `Exception` with a message. -/
inductive PyExc where
  | httpException (status_code : Nat) (detail : String)
  | exception (msg : String)

/-- Python `str(e)`: Starlette's `HTTPException.__str__` prints
`f"\x7bstatus_code\x7d: \x7bdetail\x7d"`, a plain `Exception` prints
its message. -/
def pyExcStr : PyExc → String
  | .httpException status detail => toString status ++ ": " ++ detail
  | .exception msg => msg

/-- The error actually surfaced to the HTTP caller: an
`HTTPException` status code together with its `detail` string. -/
structure HTTPError where
  status : Nat
  detail : String

/-- HTTP 4xx client-error status codes. -/
def isClientErrorStatus (c : Nat) : Prop := 400 ≤ c ∧ c < 500

/-- The upstream response as the endpoint observes it: the status
code, the result of attempting `resp.json()` (`none` when the body is
not parseable JSON), and `resp.text`. -/
structure UpResp where
  status_code : Nat
  jsonResult : Option JVal
  text : String

/-- The `except Exception as e` wrapper shared by both endpoints
(lines 166-168 and 189-191): any exception escaping the `try` body is
re-raised as `HTTPException(status_code=500, detail=str(e))`.  The
second component counts upstream network calls. -/
def wrapEndpoint : Except PyExc JVal × Nat → Except HTTPError JVal × Nat
  | (.ok v, n) => (.ok v, n)
  | (.error e, n) => (.error ⟨500, pyExcStr e⟩, n)

/-- The request body built by `generate_video` (lines 148-152). -/
def genVideoBody (prompt aspect : String) : List (String × JVal) :=
  [("req_key", .str "video_generation"),
   ("text_prompts", .list [.str prompt]),
   ("ratio", .str aspect)]

/-- The `try` body of the `/api/generate_video` endpoint
(lines 143-165): resolve credentials, build the body, call
`make_request` (one upstream call), parse the response, and raise an
`HTTPException` carrying the upstream status and `str(data)` when the
status is not 200. -/
def generate_video_inner (prompt : String) (req_ak req_sk : Option String) (aspect : String)
    (env_ak env_sk : Option String) (t : PyDatetime) (resp : UpResp) :
    Except PyExc JVal × Nat :=
  match get_credentials req_ak req_sk env_ak env_sk with
  | .error msg => (.error (.exception msg), 0)
  | .ok (ak, sk) =>
    let _out := make_request ak sk "VisualGeneration" (some [])
      (some (genVideoBody prompt aspect)) "POST" t
    let data : JVal := match resp.jsonResult with
      | some j => j
      | none => .dict [("text", .str resp.text)]
    if resp.status_code ≠ 200 then
      (.error (.httpException resp.status_code (pyRepr data)), 1)
    else
      (.ok data, 1)

/-- The `/api/generate_video` endpoint (lines 141-168). -/
def generate_video (prompt : String) (req_ak req_sk : Option String) (aspect : String)
    (env_ak env_sk : Option String) (t : PyDatetime) (resp : UpResp) :
    Except HTTPError JVal × Nat :=
  wrapEndpoint (generate_video_inner prompt req_ak req_sk aspect env_ak env_sk t resp)

/-- The `try` body of the `/api/check_status` endpoint
(lines 172-188): note `body=\x7b\x7d` is an empty dict, which is falsy in
`make_request`. -/
def check_status_inner (task_id : String) (req_ak req_sk : Option String)
    (env_ak env_sk : Option String) (t : PyDatetime) (resp : UpResp) :
    Except PyExc JVal × Nat :=
  match get_credentials req_ak req_sk env_ak env_sk with
  | .error msg => (.error (.exception msg), 0)
  | .ok (ak, sk) =>
    let _out := make_request ak sk "GetVisualServiceTask" (some [("task_id", task_id)])
      (some []) "GET" t
    let data : JVal := match resp.jsonResult with
      | some j => j
      | none => .dict [("text", .str resp.text)]
    if resp.status_code ≠ 200 then
      (.error (.httpException resp.status_code (pyRepr data)), 1)
    else
      (.ok data, 1)

/-- The `/api/check_status` endpoint (lines 170-191). -/
def check_status (task_id : String) (req_ak req_sk : Option String)
    (env_ak env_sk : Option String) (t : PyDatetime) (resp : UpResp) :
    Except HTTPError JVal × Nat :=
  wrapEndpoint (check_status_inner task_id req_ak req_sk env_ak env_sk t resp)

/-! Spec-side definitions, written from the words of the specification
rather than from the source, to be compared with the embedded code. -/

/-- Spec wording of the signing key: a chain of four HMAC-SHA256
applications narrowing date, region, service, then the fixed
terminator literal `"request"`, seeded directly from the UTF-8 bytes
of the secret key with no prefix tag. -/
def claimSigningKey (secret date region service : String) : List Nat :=
  hmacSha256 (hmacSha256 (hmacSha256 (hmacSha256 (utf8 secret) (utf8 date))
    (utf8 region)) (utf8 service)) (utf8 "request")

/-- The four signed headers, in the order the claim lists them:
content-type, host, x-content-sha256, x-date. -/
def claimHeaderList (payloadHash amzDate : String) : List (String × String) :=
  [("content-type", "application/json"), ("host", HOST),
   ("x-content-sha256", payloadHash), ("x-date", amzDate)]

/-- Spec wording of the canonical headers component: each header as a
lowercase line `name:value` terminated by a newline character. -/
def claimHeadersBlock (payloadHash amzDate : String) : String :=
  String.join ((claimHeaderList payloadHash amzDate).map fun p => p.1 ++ ":" ++ p.2 ++ "\n")

/-- Spec wording of the signed-header-name list: the header names
joined by semicolons. -/
def claimSignedHeaderNames : String :=
  String.intercalate ";" ["content-type", "host", "x-content-sha256", "x-date"]

/-- Ordering of query pairs by key only (byte-wise on the key). -/
def keyLe (a b : String × String) : Prop := a.1 ≤ b.1

instance : DecidableRel keyLe := fun a b =>
  decidable_of_iff (a.1.toList ≤ b.1.toList) (by unfold keyLe; rw [String.le_iff_toList_le])

/-- Query pairs sorted by key byte-wise, per the spec wording. -/
def sortedByKey (ps : List (String × String)) : List (String × String) :=
  List.insertionSort keyLe ps

/-- Spec wording of the canonical query string: the pairs sorted by
key byte-wise, each rendered `key=value`, joined by ampersands. -/
def claimQueryString (ps : List (String × String)) : String :=
  String.intercalate "&" ((sortedByKey ps).map fun p => p.1 ++ "=" ++ p.2)

/-- Spec wording of the canonical request: the six components joined
by the newline character with no extra separators. -/
def claimCanonicalRequest (method path query headers signedNames payloadHash : String) :
    String :=
  String.intercalate "\n" [method, path, query, headers, signedNames, payloadHash]

/-! Concrete fixtures used by witnesses and counterexamples. -/

/-- A fixed UTC instant for concrete evaluations. -/
def t0 : PyDatetime := ⟨2026, 1, 2, 3, 4, 5⟩

/-- The parsed JSON body of the spec's upstream-rejection example. -/
def jBadPrompt : JVal :=
  .dict [("ResponseMetadata", .dict [("Error", .dict [("Message", .str "bad prompt")])])]

/-- A 400 upstream response whose JSON body embeds the error message
`"bad prompt"`. -/
def respBadPrompt : UpResp := ⟨400, some jBadPrompt, ""⟩

/-- A 200 upstream response whose body is not parseable JSON. -/
def respNotJson : UpResp := ⟨200, none, "not json"⟩

/-! Order-theoretic facts about the two query-pair orderings. -/

instance : IsTotal (String × String) pairLe := ⟨by
  intro a b
  rcases lt_trichotomy a.1 b.1 with h | h | h
  · exact Or.inl (Or.inl h)
  · rcases le_total a.2 b.2 with h2 | h2
    · exact Or.inl (Or.inr ⟨h, h2⟩)
    · exact Or.inr (Or.inr ⟨h.symm, h2⟩)
  · exact Or.inr (Or.inl h)⟩

instance : IsTrans (String × String) pairLe := ⟨by
  intro a b c hab hbc
  rcases hab with h1 | ⟨h1, h1v⟩
  · rcases hbc with h2 | ⟨h2, _⟩
    · exact Or.inl (lt_trans h1 h2)
    · exact Or.inl (by rw [← h2]; exact h1)
  · rcases hbc with h2 | ⟨h2, h2v⟩
    · exact Or.inl (by rw [h1]; exact h2)
    · exact Or.inr ⟨h1.trans h2, le_trans h1v h2v⟩⟩

instance : IsAntisymm (String × String) pairLe := ⟨by
  intro a b hab hba
  rcases hab with h1 | ⟨h1, h1v⟩
  · rcases hba with h2 | ⟨h2, _⟩
    · exact absurd h2 (lt_asymm h1)
    · exact absurd h1 (not_lt.mpr h2.le)
  · rcases hba with h2 | ⟨h2, h2v⟩
    · exact absurd h2 (not_lt.mpr h1.le)
    · exact Prod.ext h1 (le_antisymm h1v h2v)⟩

instance : IsTotal (String × String) keyLe := ⟨fun a b => le_total a.1 b.1⟩

instance : IsTrans (String × String) keyLe := ⟨fun _ _ _ hab hbc => le_trans hab hbc⟩

/-- Two lists of query pairs that are permutations of one another have
the same `sorted(params.items())` result. -/
theorem sortedItems_congr_perm {p1 p2 : List (String × String)} (h : p1.Perm p2) :
    sortedItems p1 = sortedItems p2 :=
  List.eq_of_perm_of_sorted
    ((List.perm_insertionSort pairLe p1).trans (h.trans (List.perm_insertionSort pairLe p2).symm))
    (List.sorted_insertionSort pairLe p1) (List.sorted_insertionSort pairLe p2)

/-- When the keys are distinct (as they are for any Python dict),
sorting the pairs by key alone agrees with Python's full tuple sort. -/
theorem sortedByKey_eq_sortedItems {ps : List (String × String)}
    (h : (ps.map Prod.fst).Nodup) : sortedByKey ps = sortedItems ps := by
  apply List.eq_of_perm_of_sorted (r := pairLe)
    ((List.perm_insertionSort keyLe ps).trans (List.perm_insertionSort pairLe ps).symm)
  · have hs : List.Sorted keyLe (List.insertionSort keyLe ps) :=
      List.sorted_insertionSort keyLe ps
    have hps : ps.Pairwise (fun a b : String × String => a.1 ≠ b.1) := by
      rw [List.Nodup, List.pairwise_map] at h
      exact h
    have hne : (List.insertionSort keyLe ps).Pairwise
        (fun a b : String × String => a.1 ≠ b.1) :=
      ((List.perm_insertionSort keyLe ps).pairwise_iff fun hab => hab.symm).mpr hps
    exact (hs.and hne).imp fun hab => Or.inl (lt_of_le_of_ne hab.1 hab.2)
  · exact List.sorted_insertionSort pairLe ps

/-! Facts about the Python dict model. -/

/-- Key membership is preserved and created by `pyDictSet`. -/
theorem pyDictSet_any_self (ps : List (String × String)) (k v : String) :
    (pyDictSet ps k v).any (fun p => p.1 = k) = true := by
  unfold pyDictSet
  split
  · rename_i h
    rw [List.any_eq_true] at h ⊢
    obtain ⟨p, hp, hpk⟩ := h
    exact ⟨(k, v), List.mem_map.mpr ⟨p, hp, by simp [of_decide_eq_true hpk]⟩, by simp⟩
  · rw [List.any_eq_true]
    exact ⟨(k, v), List.mem_append_right _ (List.mem_singleton.mpr rfl), by simp⟩

/-- Lookup after the in-place value replacement of `pyDictSet`, at the
replaced key, when the key is present. -/
theorem pyDictGet_map_replace (ps : List (String × String)) (k v : String)
    (h : ps.any (fun p => p.1 = k) = true) :
    pyDictGet (ps.map fun p => if p.1 = k then (k, v) else p) k = some v := by
  induction ps with
  | nil => simp at h
  | cons p ps ih =>
    by_cases hp : p.1 = k
    · simp [pyDictGet, hp]
    · have h' : ps.any (fun p => p.1 = k) = true := by
        simpa [List.any_cons, hp] using h
      simpa [pyDictGet, hp] using ih h'

/-- Lookup after the in-place value replacement of `pyDictSet`, at any
other key. -/
theorem pyDictGet_map_replace_other (ps : List (String × String)) (k v k' : String)
    (hk : k' ≠ k) :
    pyDictGet (ps.map fun p => if p.1 = k then (k, v) else p) k' = pyDictGet ps k' := by
  induction ps with
  | nil => simp [pyDictGet]
  | cons p ps ih =>
    by_cases hp : p.1 = k
    · have h1 : ¬ (k = k') := fun h => hk h.symm
      have h2 : ¬ (p.1 = k') := by rw [hp]; exact h1
      simp [pyDictGet, hp, h1, h2, ih]
    · by_cases hq : p.1 = k'
      · simp [pyDictGet, hp, hq, hk]
      · simp [pyDictGet, hp, hq, ih]

/-- Lookup misses every entry when no key matches. -/
theorem pyDictGet_eq_none (ps : List (String × String)) (k : String)
    (h : ¬ ps.any (fun p => p.1 = k) = true) : pyDictGet ps k = none := by
  induction ps with
  | nil => rfl
  | cons p ps ih =>
    have hp : ¬ p.1 = k := fun hk => h (by simp [List.any_cons, hk])
    have h' : ¬ ps.any (fun p => p.1 = k) = true := fun hk => h (by simp [List.any_cons, hk])
    simpa [pyDictGet, hp] using ih h'

/-- Lookup distributes over the append in `pyDictSet`'s miss case. -/
theorem pyDictGet_append (ps qs : List (String × String)) (k : String) :
    pyDictGet (ps ++ qs) k =
      match pyDictGet ps k with
      | some v => some v
      | none => pyDictGet qs k := by
  induction ps with
  | nil => simp [pyDictGet]
  | cons p ps ih =>
    by_cases hp : p.1 = k
    · simp [pyDictGet, hp]
    · simp [pyDictGet, hp, ih]

/-- Looking up the key just set yields the value just set. -/
theorem pyDictGet_set_same (ps : List (String × String)) (k v : String) :
    pyDictGet (pyDictSet ps k v) k = some v := by
  unfold pyDictSet
  split
  · rename_i h
    exact pyDictGet_map_replace ps k v h
  · rename_i h
    rw [pyDictGet_append, pyDictGet_eq_none ps k h]
    simp [pyDictGet]

/-- Looking up any other key is unaffected by `pyDictSet`. -/
theorem pyDictGet_set_other (ps : List (String × String)) (k v k' : String) (hk : k' ≠ k) :
    pyDictGet (pyDictSet ps k v) k' = pyDictGet ps k' := by
  unfold pyDictSet
  split
  · exact pyDictGet_map_replace_other ps k v k' hk
  · rw [pyDictGet_append]
    have h1 : ¬ (k = k') := fun h => hk h.symm
    have : pyDictGet [(k, v)] k' = none := by
      simp [pyDictGet, h1]
    rw [this]
    cases pyDictGet ps k' <;> rfl

/-- Permutations agree on `List.any`. -/
theorem any_congr_perm {α : Type} {l m : List α} (f : α → Bool) (h : l.Perm m) :
    l.any f = m.any f := by
  cases hl : l.any f
  · cases hm : m.any f
    · rfl
    · rw [List.any_eq_true] at hm
      obtain ⟨a, ha, hfa⟩ := hm
      rw [List.any_eq_false] at hl
      exact absurd hfa (by simpa using hl a (h.mem_iff.mpr ha))
  · rw [List.any_eq_true] at hl
    obtain ⟨a, ha, hfa⟩ := hl
    exact (List.any_eq_true.mpr ⟨a, h.mem_iff.mp ha, hfa⟩).symm

/-- `pyDictSet` sends permuted dicts to permuted dicts. -/
theorem pyDictSet_perm {p1 p2 : List (String × String)} (k v : String) (h : p1.Perm p2) :
    (pyDictSet p1 k v).Perm (pyDictSet p2 k v) := by
  unfold pyDictSet
  rw [any_congr_perm (fun p => decide (p.1 = k)) h]
  split
  · exact h.map _
  · exact h.append_right _

/-- The in-place replacement branch of `pyDictSet` leaves the key
sequence unchanged. -/
theorem pyDictSet_keys (ps : List (String × String)) (k v : String) :
    (ps.map fun p => if p.1 = k then (k, v) else p).map Prod.fst = ps.map Prod.fst := by
  rw [List.map_map]
  apply List.map_congr_left
  intro p _
  by_cases hp : p.1 = k
  · simp [hp]
  · simp [hp]

/-- `pyDictSet` preserves distinctness of keys. -/
theorem pyDictSet_keys_nodup (ps : List (String × String)) (k v : String)
    (h : (ps.map Prod.fst).Nodup) : ((pyDictSet ps k v).map Prod.fst).Nodup := by
  unfold pyDictSet
  split
  · rw [pyDictSet_keys]
    exact h
  · rename_i hany
    have hk : k ∉ ps.map Prod.fst := by
      intro hmem
      obtain ⟨p, hp, hpk⟩ := List.mem_map.mp hmem
      exact hany (List.any_eq_true.mpr ⟨p, hp, by simp [hpk]⟩)
    simp only [List.map_append, List.map_cons, List.map_nil]
    rw [List.nodup_append]
    refine ⟨h, List.nodup_singleton k, ?_⟩
    intro a ha hb
    rw [List.mem_singleton] at hb
    exact hk (hb ▸ ha)

/-- After `pyDictSet ps k v`, every entry bearing key `k` is exactly
`(k, v)`. -/
theorem pyDictSet_entry_eq (ps : List (String × String)) (k v : String) :
    ∀ p ∈ pyDictSet ps k v, p.1 = k → p = (k, v) := by
  unfold pyDictSet
  split
  · intro p hp hpk
    obtain ⟨q, _, hq⟩ := List.mem_map.mp hp
    by_cases hqk : q.1 = k
    · rw [← hq]
      simp [hqk]
    · rw [← hq] at hpk
      simp [hqk] at hpk
  · rename_i hany
    intro p hp hpk
    rcases List.mem_append.mp hp with hmem | hmem
    · exact absurd (List.any_eq_true.mpr ⟨p, hmem, by simp [hpk]⟩) hany
    · exact List.mem_singleton.mp hmem

/-- `pyDictSet` at one key does not disturb which entries bear another
key, nor their values. -/
theorem pyDictSet_entry_other (ps : List (String × String)) (k v k' v' : String)
    (hk : k' ≠ k) (h : ∀ p ∈ ps, p.1 = k' → p = (k', v')) :
    ∀ p ∈ pyDictSet ps k v, p.1 = k' → p = (k', v') := by
  unfold pyDictSet
  split
  · intro p hp hpk
    obtain ⟨q, hqmem, hq⟩ := List.mem_map.mp hp
    by_cases hqk : q.1 = k
    · rw [← hq] at hpk
      simp [hqk] at hpk
      exact absurd hpk.symm hk
    · rw [← hq] at hpk ⊢
      simp [hqk] at hpk ⊢
      exact h q hqmem hpk
  · intro p hp hpk
    rcases List.mem_append.mp hp with hmem | hmem
    · exact h p hmem hpk
    · rw [List.mem_singleton] at hmem
      rw [hmem] at hpk
      exact absurd hpk.symm hk

/-- Key presence at another key is unaffected by the replacement
branch of `pyDictSet`. -/
theorem any_map_replace (ps : List (String × String)) (k v k' : String) (hk : k' ≠ k) :
    ((ps.map fun p => if p.1 = k then (k, v) else p).any fun p => p.1 = k') =
      ps.any (fun p => p.1 = k') := by
  induction ps with
  | nil => rfl
  | cons p ps ih =>
    by_cases hp : p.1 = k
    · have h1 : ¬ (k = k') := fun h => hk h.symm
      have h2 : ¬ (p.1 = k') := by rw [hp]; exact h1
      simp [List.any_cons, hp, h1, h2, ih]
    · simp [List.any_cons, hp, ih]

/-- Key presence at another key is unaffected by `pyDictSet`. -/
theorem pyDictSet_any_other (ps : List (String × String)) (k v k' : String) (hk : k' ≠ k) :
    (pyDictSet ps k v).any (fun p => p.1 = k') = ps.any (fun p => p.1 = k') := by
  unfold pyDictSet
  split
  · exact any_map_replace ps k v k' hk
  · have h1 : ¬ (k = k') := fun h => hk h.symm
    simp [List.any_append, List.any_cons, h1]

/-- Setting a key to a value it already carries everywhere is a
no-op. -/
theorem pyDictSet_no_op (ps : List (String × String)) (k v : String)
    (h1 : ps.any (fun p => p.1 = k) = true)
    (h2 : ∀ p ∈ ps, p.1 = k → p = (k, v)) : pyDictSet ps k v = ps := by
  unfold pyDictSet
  rw [if_pos h1]
  have : ∀ p ∈ ps, (if p.1 = k then (k, v) else p) = p := by
    intro p hp
    by_cases hpk : p.1 = k
    · rw [if_pos hpk]
      exact (h2 p hp hpk).symm
    · exact if_neg hpk
  rw [List.map_congr_left this, List.map_id']

/-- The merged `Action`/`Version` update of `make_request` is stable:
applying it to an already-updated dict returns the dict unchanged. -/
theorem actionVersion_stable (ps : List (String × String)) (a w : String) :
    pyDictSet (pyDictSet (pyDictSet (pyDictSet ps "Action" a) "Version" w) "Action" a)
        "Version" w =
      pyDictSet (pyDictSet ps "Action" a) "Version" w := by
  set q1 := pyDictSet ps "Action" a with hq1
  set q2 := pyDictSet q1 "Version" w with hq2
  have hVA : ("Action" : String) ≠ "Version" := by decide
  have hact : pyDictSet q2 "Action" a = q2 := by
    apply pyDictSet_no_op
    · rw [hq2, pyDictSet_any_other q1 "Version" w "Action" hVA]
      exact pyDictSet_any_self ps "Action" a
    · rw [hq2]
      exact pyDictSet_entry_other q1 "Version" w "Action" a hVA (pyDictSet_entry_eq ps "Action" a)
  rw [hact]
  apply pyDictSet_no_op
  · exact pyDictSet_any_self q1 "Version" w
  · exact pyDictSet_entry_eq q1 "Version" w

/-! The claims. -/

/-- Claim C2: for every secret key, date stamp, region and service,
the signing key equals four chained HMAC-SHA256 applications narrowing
date, then region, then service, then the fixed terminator literal
`"request"`, seeded directly from the UTF-8 bytes of the secret key
with no prefix tag; and the signature computed by `make_request` is
the hex HMAC-SHA256 of the string to sign under that key. -/
theorem claim_C2 (ak sk action method : String) (params : Option (List (String × String)))
    (body : Option (List (String × JVal))) (t : PyDatetime)
    (secret date region service : String) :
    get_signature_key secret date region service = claimSigningKey secret date region service ∧
    (make_request ak sk action params body method t).signature =
      hexdigest (hmacSha256 (claimSigningKey sk (strftimeDateStamp t) REGION SERVICE)
        (utf8 (make_request ak sk action params body method t).string_to_sign)) :=
  ⟨rfl, rfl⟩

/-- Claim C4 (amended): when the request supplies no credentials and
the environment fallback is unset, both endpoints fail with detail
`Missing Credentials` — surfaced as HTTP 500, a server error, because
the catch-all except block maps every failure to 500 — and perform
zero upstream network calls. -/
theorem claim_C4 (prompt aspect task_id : String) (t : PyDatetime) (resp : UpResp) :
    generate_video prompt none none aspect none none t resp =
      (.error ⟨500, "Missing Credentials"⟩, 0) ∧
    check_status task_id none none none none t resp =
      (.error ⟨500, "Missing Credentials"⟩, 0) :=
  ⟨rfl, rfl⟩

/-- Claim C4 counterexample: the Missing-Credentials failure reaches
the caller with status 500, which is not a 4xx client error (no
upstream call is made, as the claim also states). -/
theorem claim_C4_counterexample :
    (generate_video "a cat" none none "16:9" none none t0 respNotJson).1 =
      .error ⟨500, "Missing Credentials"⟩ ∧
    (generate_video "a cat" none none "16:9" none none t0 respNotJson).2 = 0 ∧
    ¬ isClientErrorStatus 500 := by
  refine ⟨rfl, rfl, ?_⟩
  unfold isClientErrorStatus
  decide

/-- Claim C9: a 200 upstream response whose body is not parseable JSON
is returned to the caller as a successful payload carrying the raw
response text under the key `text`; neither endpoint crashes. -/
theorem claim_C9 (prompt aspect task_id ak sk text : String) (t : PyDatetime)
    (hak : ak ≠ "") (hsk : sk ≠ "") :
    generate_video prompt (some ak) (some sk) aspect none none t ⟨200, none, text⟩ =
      (.ok (.dict [("text", .str text)]), 1) ∧
    check_status task_id (some ak) (some sk) none none t ⟨200, none, text⟩ =
      (.ok (.dict [("text", .str text)]), 1) := by
  have hcred : get_credentials (some ak) (some sk) none none = .ok (ak, sk) := by
    unfold get_credentials
    simp [hak, hsk]
  constructor
  · unfold generate_video generate_video_inner
    rw [hcred]
    simp [wrapEndpoint]
  · unfold check_status check_status_inner
    rw [hcred]
    simp [wrapEndpoint]

/-- Claim C9 witness at the spec's concrete example. -/
theorem claim_C9_witness :
    ("AK" : String) ≠ "" ∧ ("SK" : String) ≠ "" ∧
    (generate_video "a cat" (some "AK") (some "SK") "16:9" none none t0 respNotJson =
        (.ok (.dict [("text", .str "not json")]), 1) ∧
      check_status "t1" (some "AK") (some "SK") none none t0 respNotJson =
        (.ok (.dict [("text", .str "not json")]), 1)) :=
  ⟨by decide, by decide,
    claim_C9 "a cat" "16:9" "t1" "AK" "SK" "not json" t0 (by decide) (by decide)⟩

/-- Claim C10: `make_request` mutates the caller's params dict: after
the call it maps `Action` to the action argument and `Version` to the
fixed API version, and the binding of every other key is unchanged. -/
theorem claim_C10 (ak sk action method : String) (params : List (String × String))
    (body : Option (List (String × JVal))) (t : PyDatetime) (k : String) :
    pyDictGet (make_request ak sk action (some params) body method t).paramsAfter "Action"
        = some action ∧
    pyDictGet (make_request ak sk action (some params) body method t).paramsAfter "Version"
        = some VERSION ∧
    (k ≠ "Action" → k ≠ "Version" →
      pyDictGet (make_request ak sk action (some params) body method t).paramsAfter k
        = pyDictGet params k) := by
  have hAfter : (make_request ak sk action (some params) body method t).paramsAfter =
      pyDictSet (pyDictSet params "Action" action) "Version" VERSION := rfl
  refine ⟨?_, ?_, ?_⟩
  · rw [hAfter, pyDictGet_set_other _ "Version" VERSION "Action" (by decide),
      pyDictGet_set_same]
  · rw [hAfter, pyDictGet_set_same]
  · intro h1 h2
    rw [hAfter, pyDictGet_set_other _ "Version" VERSION k h2,
      pyDictGet_set_other _ "Action" action k h1]

/-- Claim C10 witness: a pre-existing entry under another key is
untouched while `Action` and `Version` are set. -/
theorem claim_C10_witness :
    ("x" : String) ≠ "Action" ∧ ("x" : String) ≠ "Version" ∧
    pyDictGet (make_request "AK" "SK" "VisualGeneration" (some [("x", "1")]) none "POST"
        t0).paramsAfter "x" = pyDictGet [("x", "1")] "x" :=
  ⟨by decide, by decide,
    (claim_C10 "AK" "SK" "VisualGeneration" "POST" [("x", "1")] none t0 "x").2.2
      (by decide) (by decide)⟩

/-- Claim C5: the signing computation is a deterministic function of
its inputs plus the timestamp: re-running the canonical-request
construction and signing with the same arguments and the same
timestamp — the second run seeing the params dict exactly as the first
run left it, as happens in the Python code — yields a byte-identical
canonical request and an identical signature. -/
theorem claim_C5 (ak sk action method : String) (params : Option (List (String × String)))
    (body : Option (List (String × JVal))) (t : PyDatetime) :
    (make_request ak sk action
        (some (make_request ak sk action params body method t).paramsAfter) body method
        t).canonical_request =
      (make_request ak sk action params body method t).canonical_request ∧
    (make_request ak sk action
        (some (make_request ak sk action params body method t).paramsAfter) body method
        t).signature =
      (make_request ak sk action params body method t).signature := by
  have hall : make_request ak sk action
      (some (make_request ak sk action params body method t).paramsAfter) body method t =
      make_request ak sk action params body method t := by
    simp only [make_request]
    rw [actionVersion_stable]
  exact ⟨congrArg SignedOutput.canonical_request hall, congrArg SignedOutput.signature hall⟩

/-- Claim C6: two query mappings that are equal as mappings but
presented in different orders produce the same canonical query string
and the same signature, because canonicalization sorts the pairs. -/
theorem claim_C6 (ak sk action method : String) (p1 p2 : List (String × String))
    (body : Option (List (String × JVal))) (t : PyDatetime) (h : p1.Perm p2) :
    (make_request ak sk action (some p1) body method t).canonical_querystring =
      (make_request ak sk action (some p2) body method t).canonical_querystring ∧
    (make_request ak sk action (some p1) body method t).signature =
      (make_request ak sk action (some p2) body method t).signature := by
  have hsort : sortedItems (pyDictSet (pyDictSet p1 "Action" action) "Version" VERSION) =
      sortedItems (pyDictSet (pyDictSet p2 "Action" action) "Version" VERSION) :=
    sortedItems_congr_perm
      (pyDictSet_perm "Version" VERSION (pyDictSet_perm "Action" action h))
  constructor
  · simp only [make_request]
    rw [hsort]
  · simp only [make_request]
    rw [hsort]

/-- Claim C6 witness at the spec's example `sign(b:2, a:1)` versus
`sign(a:1, b:2)`. -/
theorem claim_C6_witness :
    ([("b", "2"), ("a", "1")] : List (String × String)).Perm [("a", "1"), ("b", "2")] ∧
    ((make_request "AK" "SK" "VisualGeneration" (some [("b", "2"), ("a", "1")]) none "POST"
          t0).canonical_querystring =
        (make_request "AK" "SK" "VisualGeneration" (some [("a", "1"), ("b", "2")]) none "POST"
          t0).canonical_querystring ∧
      (make_request "AK" "SK" "VisualGeneration" (some [("b", "2"), ("a", "1")]) none "POST"
          t0).signature =
        (make_request "AK" "SK" "VisualGeneration" (some [("a", "1"), ("b", "2")]) none "POST"
          t0).signature) :=
  ⟨List.Perm.swap _ _ _,
    claim_C6 "AK" "SK" "VisualGeneration" "POST" [("b", "2"), ("a", "1")]
      [("a", "1"), ("b", "2")] none t0 (List.Perm.swap _ _ _)⟩

/-- Claim C3 (amended): a non-200 upstream response with a parseable
JSON body reaches the caller as an error whose status code is 500 —
the upstream status is discarded by the catch-all except block, not
preserved — and whose detail is the upstream status followed by the
Python repr of the parsed body, which contains the embedded error
message. -/
theorem claim_C3 (prompt aspect ak sk text : String) (t : PyDatetime)
    (status : Nat) (j : JVal) (hak : ak ≠ "") (hsk : sk ≠ "") (hst : status ≠ 200) :
    generate_video prompt (some ak) (some sk) aspect none none t ⟨status, some j, text⟩ =
      (.error ⟨500, toString status ++ ": " ++ pyRepr j⟩, 1) := by
  have hcred : get_credentials (some ak) (some sk) none none = .ok (ak, sk) := by
    unfold get_credentials
    simp [hak, hsk]
  unfold generate_video generate_video_inner
  rw [hcred]
  simp [wrapEndpoint, pyExcStr, hst]

/-- Claim C3 witness at the spec's 400 `bad prompt` example; the
resulting detail contains the extracted message `bad prompt`. -/
theorem claim_C3_witness :
    ("AK" : String) ≠ "" ∧ ("SK" : String) ≠ "" ∧ (400 : Nat) ≠ 200 ∧
    generate_video "a cat" (some "AK") (some "SK") "16:9" none none t0 respBadPrompt =
      (.error ⟨500, toString 400 ++ ": " ++ pyRepr jBadPrompt⟩, 1) ∧
    "bad prompt".data <:+: (toString 400 ++ ": " ++ pyRepr jBadPrompt).data :=
  ⟨by decide, by decide, by decide,
    claim_C3 "a cat" "16:9" "AK" "SK" "" t0 400 jBadPrompt (by decide) (by decide) (by decide),
    by decide⟩

/-- Claim C3 counterexample: for the 400 `bad prompt` response the
caller receives status 500, not the upstream status 400, refuting the
claim that the surfaced status code equals the upstream one (the
detail does contain the extracted message). -/
theorem claim_C3_counterexample :
    (generate_video "a cat" (some "AK") (some "SK") "16:9" none none t0 respBadPrompt).1 =
      .error ⟨500, "400: " ++ pyRepr jBadPrompt⟩ ∧
    (500 : Nat) ≠ 400 ∧
    "bad prompt".data <:+: ("400: " ++ pyRepr jBadPrompt).data :=
  ⟨rfl, by decide, by decide⟩

/-- Claim C7 (amended): a nonempty body_fields mapping is transmitted
as its compact JSON serialization (deterministic, no inserted
whitespace); the empty mapping, however, is transmitted as the empty
byte sequence — not as the serialization of the empty object — and its
payload hash is the hex SHA-256 of the empty byte sequence. -/
theorem claim_C7 (ak sk action method : String) (params : Option (List (String × String)))
    (t : PyDatetime) (fs : List (String × JVal)) (hfs : fs ≠ []) :
    (make_request ak sk action params (some fs) method t).body_bytes =
      utf8 (jsonDumps (.dict fs)) ∧
    (make_request ak sk action params (some []) method t).body_bytes = [] ∧
    (make_request ak sk action params (some []) method t).payload_hash =
      hexdigest (sha256 []) := by
  refine ⟨?_, rfl, rfl⟩
  cases fs with
  | nil => exact absurd rfl hfs
  | cons p ps => rfl

/-- Claim C7 witness at the generation body of the spec's end-to-end
example. -/
theorem claim_C7_witness :
    genVideoBody "a cat" "16:9" ≠ [] ∧
    ((make_request "AK" "SK" "VisualGeneration" (some []) (some (genVideoBody "a cat" "16:9"))
          "POST" t0).body_bytes =
        utf8 (jsonDumps (.dict (genVideoBody "a cat" "16:9"))) ∧
      (make_request "AK" "SK" "VisualGeneration" (some []) (some []) "POST"
          t0).body_bytes = [] ∧
      (make_request "AK" "SK" "VisualGeneration" (some []) (some []) "POST"
          t0).payload_hash = hexdigest (sha256 [])) :=
  ⟨List.cons_ne_nil _ _,
    claim_C7 "AK" "SK" "VisualGeneration" "POST" (some []) t0 (genVideoBody "a cat" "16:9")
      (List.cons_ne_nil _ _)⟩

/-- Claim C7 counterexample: `check_status` passes the empty dict as
the body, and the transmitted bytes are empty rather than the two-byte
compact serialization of the empty object; the payload hash is the
well-known SHA-256 of the empty input. -/
theorem claim_C7_counterexample :
    (make_request "AK" "SK" "GetVisualServiceTask" (some [("task_id", "t1")]) (some [])
        "GET" t0).body_bytes = [] ∧
    utf8 (jsonDumps (.dict [])) = [123, 125] ∧
    ([] : List Nat) ≠ [123, 125] ∧
    (make_request "AK" "SK" "GetVisualServiceTask" (some [("task_id", "t1")]) (some [])
        "GET" t0).payload_hash =
      "e3b0c44298fc1c149afbf4c8996fb92427ae41e4649b934ca495991b7852b855" :=
  ⟨rfl, by decide, by decide, by decide⟩

/-- Big-endian words are four bytes. -/
theorem be32_length (n : Nat) : (be32 n).length = 4 := rfl

/-- Hex bytes are two characters. -/
theorem hexByte_length (b : Nat) : (hexByte b).length = 2 := rfl

/-- Length of the byte serialization of the final hash state. -/
theorem length_foldr_be32 (hs : List Nat) :
    (hs.foldr (fun h acc => be32 h ++ acc) []).length = 4 * hs.length := by
  induction hs with
  | nil => rfl
  | cons h hs ih =>
    rw [List.foldr_cons, List.length_append, ih, be32_length, List.length_cons]
    omega

/-- The compression step always yields an 8-word state. -/
theorem compressBlock_length (hs block : List Nat) : (compressBlock hs block).length = 8 := rfl

/-- Folding the compression over any block sequence keeps 8 words. -/
theorem foldl_compressBlock_length (blocks : List (List Nat)) (hs : List Nat)
    (h : hs.length = 8) : (blocks.foldl compressBlock hs).length = 8 := by
  induction blocks generalizing hs with
  | nil => exact h
  | cons b bs ih => exact ih _ (compressBlock_length hs b)

/-- SHA-256 digests are 32 bytes. -/
theorem sha256_length (msg : List Nat) : (sha256 msg).length = 32 := by
  unfold sha256
  rw [length_foldr_be32, foldl_compressBlock_length (chunks64 (sha256pad msg)) sha256H0 rfl]

/-- HMAC-SHA256 digests are 32 bytes. -/
theorem hmacSha256_length (key msg : List Nat) : (hmacSha256 key msg).length = 32 :=
  sha256_length _

/-- Hex digests are twice as long as their input. -/
theorem hexdigest_length (bs : List Nat) : (hexdigest bs).length = 2 * bs.length := by
  show (bs.foldr (fun b acc => hexByte b ++ acc) []).length = 2 * bs.length
  induction bs with
  | nil => rfl
  | cons b bs ih =>
    rw [List.foldr_cons, List.length_append, ih, hexByte_length, List.length_cons]
    omega

/-- Claim C8 (amended): the signing computation never fails — it is a
total function of its arguments, the empty secret key included
(Python's `hmac.new` accepts an empty key), always yielding an
authorization header of the fixed shape whose signature is 64 hex
digits; it performs no network calls, the send being outside this
pure computation.  The original claim that it fails on an empty
secret key is refuted by the counterexample. -/
theorem claim_C8 (ak sk action method : String) (params : Option (List (String × String)))
    (body : Option (List (String × JVal))) (t : PyDatetime) :
    (make_request ak sk action params body method t).signature.length = 64 ∧
    (make_request ak sk action params body method t).authorization_header =
      "HMAC-SHA256" ++ " Credential=" ++ ak ++ "/" ++
        (make_request ak sk action params body method t).date_stamp ++ "/" ++ REGION ++ "/" ++
        SERVICE ++ "/request" ++ ", " ++ "SignedHeaders=" ++
        (make_request ak sk action params body method t).signed_headers ++ ", Signature=" ++
        (make_request ak sk action params body method t).signature := by
  constructor
  · have hsig : (make_request ak sk action params body method t).signature =
        hexdigest (hmacSha256 (get_signature_key sk (strftimeDateStamp t) REGION SERVICE)
          (utf8 (make_request ak sk action params body method t).string_to_sign)) := rfl
    rw [hsig, hexdigest_length, hmacSha256_length]
  · simp only [make_request]
    simp [← String.append_assoc]

/-- Claim C8 counterexample: with the empty secret key the signing
computation does not fail; it produces this complete, well-formed
authorization header. -/
theorem claim_C8_counterexample :
    (make_request "AK" "" "VisualGeneration" none none "POST" t0).authorization_header =
      "HMAC-SHA256 Credential=AK/20260102/cn-north-1/visual/request, SignedHeaders=content-type;host;x-content-sha256;x-date, Signature=3af39ebe37954aa2fd8faa6fb01bd999003af3dd338c99f86200f2e60519e5bc" := by
  decide

/-- Claim C1: the canonical request built by `make_request` is exactly
the six components — method, path, sorted-by-key query string, the
canonical headers (each a lowercase `name:value` line, in the order
content-type, host, x-content-sha256, x-date), the semicolon-joined
signed-header-name list, and the hex SHA-256 digest of the body —
joined by newlines with no extra separators.  The hypothesis records
that the caller's query mapping has distinct keys, as every Python
dict does. -/
theorem claim_C1 (ak sk action method : String) (params : List (String × String))
    (body : Option (List (String × JVal))) (t : PyDatetime)
    (h : (params.map Prod.fst).Nodup) :
    (make_request ak sk action (some params) body method t).canonical_request =
      claimCanonicalRequest method "/"
        (claimQueryString (make_request ak sk action (some params) body method t).paramsAfter)
        (claimHeadersBlock (make_request ak sk action (some params) body method t).payload_hash
          (make_request ak sk action (some params) body method t).amz_date)
        claimSignedHeaderNames
        (hexdigest (sha256 (make_request ak sk action (some params) body method t).body_bytes)) := by
  have hnd : ((make_request ak sk action (some params) body method t).paramsAfter.map
      Prod.fst).Nodup :=
    pyDictSet_keys_nodup _ "Version" VERSION (pyDictSet_keys_nodup _ "Action" action h)
  have hq : claimQueryString (make_request ak sk action (some params) body method t).paramsAfter =
      (make_request ak sk action (some params) body method t).canonical_querystring := by
    unfold claimQueryString
    rw [sortedByKey_eq_sortedItems hnd]
    rfl
  rw [hq]
  simp only [make_request, claimCanonicalRequest, claimHeadersBlock, claimHeaderList,
    claimSignedHeaderNames, String.intercalate, String.intercalate.go, String.join,
    List.map, List.foldl]
  simp [← String.append_assoc]

/-- Claim C1 witness at the status-query request shape. -/
theorem claim_C1_witness :
    (([("task_id", "t1")] : List (String × String)).map Prod.fst).Nodup ∧
    (make_request "AK" "SK" "GetVisualServiceTask" (some [("task_id", "t1")]) (some [])
        "GET" t0).canonical_request =
      claimCanonicalRequest "GET" "/"
        (claimQueryString (make_request "AK" "SK" "GetVisualServiceTask"
          (some [("task_id", "t1")]) (some []) "GET" t0).paramsAfter)
        (claimHeadersBlock (make_request "AK" "SK" "GetVisualServiceTask"
            (some [("task_id", "t1")]) (some []) "GET" t0).payload_hash
          (make_request "AK" "SK" "GetVisualServiceTask" (some [("task_id", "t1")]) (some [])
            "GET" t0).amz_date)
        claimSignedHeaderNames
        (hexdigest (sha256 (make_request "AK" "SK" "GetVisualServiceTask"
          (some [("task_id", "t1")]) (some []) "GET" t0).body_bytes)) :=
  ⟨by decide,
    claim_C1 "AK" "SK" "GetVisualServiceTask" "GET" [("task_id", "t1")] (some []) t0
      (by decide)⟩

end Cheaf
